import Mathlib

/-
Verification of the TellerBot escrow engine against its specification.

The Python sources are shallowly embedded: `Decimal` amounts become exact
rationals, the MongoDB `escrow` collection becomes a list of offer documents
manipulated by explicit `find_one` / `update_one` / delete operations, and the
per-adapter transaction watch queue becomes a list of entries.  Handlers are
embedded as pure state transformers over these structures, following the
source in src/handlers/escrow.py and src/escrow/blockchain/__init__.py.
-/

/-- Money amounts: Python `Decimal` values, embedded as exact rationals. -/
abbrev Money := ℚ

/-- Modelled from the spec: `normalize_money` lives in `src/utils.py`, which is
not among the provided sources.  Per the spec (Money Normalization), it rounds
a raw decimal amount to a canonical representation at a small fixed number of
fractional digits; we model rounding half-up at 8 fractional places. -/
def normalize_money (m : Money) : Money :=
  (⌊m * 10 ^ 8 + 1 / 2⌋ : ℚ) / 10 ^ 8

/-- Which side of the exchange an amount or currency belongs to
(the `type` field of an offer, and the `sum_currency` selector). -/
inductive Side
  | buy
  | sell
  deriving DecidableEq, Repr

/-- Offer lifecycle stages stored in the `stage` field. -/
inductive Stage
  | creation
  | pending
  | active
  | confirmed
  deriving DecidableEq, Repr

/-- A party of the exchange: `init` or `counter` subdocument (only the
fields the verified handlers read). -/
structure Party where
  id : Nat
  deriving DecidableEq, Repr

/-- An escrow offer document of the `escrow` collection
(fields used by the verified handlers and callbacks). -/
structure Offer where
  id : Nat
  init : Party
  counter : Party
  type : Side
  sum_buy : Money
  sum_sell : Money
  sum_fee_up : Money
  sum_fee_down : Money
  sell_address : String
  buy_address : String
  memo : String
  return_address : String
  stage : Stage
  react_time : Option ℚ
  transaction_time : Option ℚ
  cancel_time : Option ℚ
  trx_id : Option String
  deriving DecidableEq, Repr

/-- The `escrow` collection: a list of offer documents. -/
abbrev EscrowDb := List Offer

/-- `database.escrow.find_one({'_id': oid})`: first document with this id. -/
def find_one (db : EscrowDb) (oid : Nat) : Option Offer :=
  db.find? (fun o => o.id = oid)

/-- `database.escrow.update_one({'_id': oid}, {'$set': ...})`: apply the update
to the first document matching the id, leave the rest unchanged. -/
def update_one (db : EscrowDb) (oid : Nat) (f : Offer → Offer) : EscrowDb :=
  match db with
  | [] => []
  | o :: rest => if o.id = oid then f o :: rest else o :: update_one rest oid f

/-- `database.escrow.delete_many(p)`: delete every document matching `p`. -/
def delete_many (db : EscrowDb) (p : Offer → Bool) : EscrowDb :=
  db.filter (fun o => !p o)

/-- Modelled from the spec: `EscrowOffer.delete_document` is defined in
`src/escrow/__init__.py`, which is not among the provided sources; per the
spec (persistence interface, cancellation) it deletes the offer's own
document from the `escrow` collection by id. -/
def delete_document (db : EscrowDb) (oid : Nat) : EscrowDb :=
  match db with
  | [] => []
  | o :: rest => if o.id = oid then rest else o :: delete_document rest oid

/-- `find_one` after `update_one` on the same id sees the updated document. -/
theorem find_one_update_one (db : EscrowDb) (oid : Nat) (f : Offer → Offer)
    (offer : Offer) (hf : ∀ o : Offer, (f o).id = o.id)
    (h : find_one db oid = some offer) :
    find_one (update_one db oid f) oid = some (f offer) := by
  induction db with
  | nil => simp [find_one] at h
  | cons o rest ih =>
      by_cases ho : o.id = oid
      · simp [find_one, List.find?, ho] at h
        subst h
        simp [find_one, update_one, List.find?, ho, hf o]
      · simp [find_one, List.find?, ho] at h
        simp [find_one, update_one, List.find?, ho]
        exact ih h

/- ### Address validation (src/handlers/escrow.py lines 161 and 295) -/

/-- Membership in Python's `string.ascii_letters + string.digits`:
ASCII uppercase, ASCII lowercase, or ASCII digit. -/
def isAsciiAlnum (c : Char) : Bool :=
  (65 ≤ c.toNat && c.toNat ≤ 90) ||
  (97 ≤ c.toNat && c.toNat ≤ 122) ||
  (48 ≤ c.toNat && c.toNat ≤ 57)

/-- The address check shared by `set_sell_address` and `set_buy_address`:
the input is rejected when `len(text) > 35 or not all(ch in
string.ascii_letters + string.digits for ch in text)`, accepted otherwise. -/
def validAddress (s : String) : Bool :=
  !(35 < s.length || !(s.data.all isAsciiAlnum))

/-- `set_sell_address` (src/handlers/escrow.py lines 159-206), database part:
an invalid address is answered with a message and no mutation; a valid one
stores `sell_address` and advances the stage to `pending`.  The Bool result
records whether the address was accepted. -/
def set_sell_address (db : EscrowDb) (offer : Offer) (text : String) :
    EscrowDb × Bool :=
  if validAddress text then
    (update_one db offer.id
      (fun o => { o with sell_address := text, stage := Stage.pending }), true)
  else
    (db, false)

/- ### Transaction watch queue (src/escrow/blockchain/__init__.py) -/

/-- An entry of `BaseBlockchain._queue`. -/
structure QueueEntry where
  offer_id : Nat
  from_address : String
  amount_with_fee : Money
  amount_without_fee : Money
  asset : String
  memo : String
  deriving DecidableEq, Repr

/-- `BaseBlockchain.check_transaction` (lines 105-127): append the entry to
`self._queue`; if the queue then has exactly one element, call
`start_streaming()`.  The Nat result counts the `start_streaming()` calls
made by this invocation. -/
def check_transaction (queue : List QueueEntry) (e : QueueEntry) :
    List QueueEntry × Nat :=
  let q := queue ++ [e]
  (q, if q.length = 1 then 1 else 0)

/-- `BaseBlockchain.remove_from_queue` (lines 129-139): remove the first entry
whose `offer_id` matches and report True, or report False when none does. -/
def remove_from_queue (queue : List QueueEntry) (oid : Nat) :
    List QueueEntry × Bool :=
  match queue with
  | [] => ([], false)
  | e :: rest =>
      if e.offer_id = oid then (rest, true)
      else
        let r := remove_from_queue rest oid
        (e :: r.1, r.2)

/- ### Queue ownership (src/escrow/blockchain/__init__.py line 55)

`_queue: typing.List[...] = []` appears in the class body of `BaseBlockchain`
and is therefore a class attribute: one list object created when the class is
defined.  No code in the provided sources ever shadows `_queue` on an instance
or subclass, so Python attribute lookup resolves `self._queue` on every
adapter instance to this single class-level list, and
`self._queue.append(...)` in `check_transaction` mutates that shared list. -/

/-- An adapter instance (one per supported asset). -/
abbrev AdapterId := Nat

/-- Process-level state of the watch-queue mechanism: the single class
attribute `BaseBlockchain._queue`. -/
structure ProcState where
  class_queue : List QueueEntry
  deriving DecidableEq, Repr

/-- Attribute lookup `a._queue`: every instance resolves to the class-level
list, because no instance or subclass in the sources shadows it. -/
def queue_of (s : ProcState) (a : AdapterId) : List QueueEntry :=
  s.class_queue

/-- `a.check_transaction(...)`: appends to the (shared) `_queue` and counts
the `start_streaming()` calls this invocation makes. -/
def check_transaction_via (s : ProcState) (a : AdapterId) (e : QueueEntry) :
    ProcState × Nat :=
  let r := check_transaction (queue_of s a) e
  ({ class_queue := r.1 }, r.2)

/- ### Fee negotiation (src/handlers/escrow.py lines 97-113, 145-156, 279-290) -/

/-- Which fee field a callback's third token names:
`sum_fee_up` or `sum_fee_down`. -/
inductive FeeField
  | up
  | down
  deriving DecidableEq, Repr

/-- `offer['sum_' + side]`. -/
def offerSum (o : Offer) (side : Side) : Money :=
  match side with
  | Side.buy => o.sum_buy
  | Side.sell => o.sum_sell

/-- `{'$set': {sum_fee_field: v}}` on an offer document. -/
def setFee (o : Offer) (f : FeeField) (v : Money) : Offer :=
  match f with
  | FeeField.up => { o with sum_fee_up := v }
  | FeeField.down => { o with sum_fee_down := v }

/-- The FSM step a fee handler leaves the acting user in. -/
inductive EscrowStep
  | sellFeeStep
  | sellAddressStep
  | buyFeeStep
  | buyAddressStep
  deriving DecidableEq, Repr

/-- `sell_decline_fee` (lines 145-156): store the unmodified base sum
`offer['sum_' + offer.type]` into the fee field named by the callback, then
ask for the sell address (state `sell_address`). -/
def sell_decline_fee (db : EscrowDb) (offer : Offer) (f : FeeField) :
    EscrowDb × EscrowStep :=
  (update_one db offer.id (fun o => setFee o f (offerSum offer offer.type)),
   EscrowStep.sellAddressStep)

/-- `buy_decline_fee` (lines 279-290): same update, then ask for the buy
address (state `buy_address`). -/
def buy_decline_fee (db : EscrowDb) (offer : Offer) (f : FeeField) :
    EscrowDb × EscrowStep :=
  (update_one db offer.id (fun o => setFee o f (offerSum offer offer.type)),
   EscrowStep.buyAddressStep)

/- ### Sum entry (src/handlers/escrow.py lines 97-113) -/

/-- The `$set` computed by `set_escrow_sum` once the user's amount passed
validation and the order-sum bound. -/
structure SumUpdate where
  sum_buy : Money
  sum_sell : Money
  sum_fee_up : Money
  sum_fee_down : Money
  deriving DecidableEq, Repr

/-- `set_escrow_sum` (lines 97-109), the update computation: the supplied sum
is stored under `sum_currency`; the other side is derived via the order's
price and normalized; the fee fields are computed from whichever of
`sum_buy`/`sum_sell` corresponds to `offer.type` by multiplying with
`Decimal('1.05')` and `Decimal('0.95')` and normalizing. -/
def set_escrow_sum (sumCurrency offerType : Side)
    (priceBuy priceSell : Money) (escrowSum : Money) : SumUpdate :=
  let derived : Money :=
    match sumCurrency with
    | Side.buy => normalize_money (escrowSum * priceSell)
    | Side.sell => normalize_money (escrowSum * priceBuy)
  let sumBuy := match sumCurrency with
    | Side.buy => escrowSum
    | Side.sell => derived
  let sumSell := match sumCurrency with
    | Side.buy => derived
    | Side.sell => escrowSum
  let s := match offerType with
    | Side.buy => sumBuy
    | Side.sell => sumSell
  { sum_buy := sumBuy
    sum_sell := sumSell
    sum_fee_up := normalize_money (s * (105 / 100))
    sum_fee_down := normalize_money (s * (95 / 100)) }

/- ### Callback dispatch and the accept step
(src/handlers/escrow.py lines 43-56 and 209-254) -/

/-- The reply given through `call.answer(...)`. -/
inductive CallbackAnswer
  | notFound
  | plain
  | cantCancel
  deriving DecidableEq, Repr

/-- `accept_offer` handler body (lines 209-254), database effects: delete
every pending offer by the same initiator, then set `stage='active'` and
`react_time=time()` on the accepted offer's id. -/
def accept_offer (now : ℚ) (db : EscrowDb) (offer : Offer) : EscrowDb :=
  let db1 := delete_many db
    (fun o => o.init.id = offer.init.id && o.stage = Stage.pending)
  update_one db1 offer.id
    (fun o => { o with stage := Stage.active, react_time := some now })

/-- Dispatch of a callback `accept <offer_id>` through
`escrow_callback_handler` (lines 43-56): the wrapper looks the offer up by id
and answers 'Offer is not found.' only when the lookup fails; neither the
wrapper nor `accept_offer` ever reads `actor` (the acting user) or checks the
offer's stage. -/
def dispatch_accept (now : ℚ) (db : EscrowDb) (oid : Nat) (actor : Nat) :
    CallbackAnswer × EscrowDb :=
  match find_one db oid with
  | none => (CallbackAnswer.notFound, db)
  | some offer =>
      let _ := actor
      (CallbackAnswer.plain, accept_offer now db offer)

/- ### Cancellation (src/handlers/escrow.py lines 352-368) -/

/-- `cancel_offer`: a confirmed offer cannot be cancelled; otherwise the
offer document is deleted.  The handler never touches the adapter's watch
queue, so the queue component is returned unchanged. -/
def cancel_offer (db : EscrowDb) (queue : List QueueEntry) (offer : Offer) :
    CallbackAnswer × EscrowDb × List QueueEntry :=
  if offer.stage = Stage.confirmed then
    (CallbackAnswer.cantCancel, db, queue)
  else
    (CallbackAnswer.plain, delete_document db offer.id, queue)

/- ### Blockchain callbacks (src/escrow/blockchain/__init__.py
lines 141-217 and 219-274) -/

/-- A message sent to a user by a blockchain callback. -/
inductive Notice
  | transactionPassed (uid : Nat)
  | sendInstructions (uid : Nat)
  | retry (uid : Nat)
  | refundMistakes (uid : Nat)
  | refunded (uid : Nat)
  | notConfirmed (uid : Nat)
  deriving DecidableEq, Repr

/-- The party selected as `escrow_user` (resp. `user`) by
`_confirmation_callback` and `_refund_callback`:
`offer['init'] if offer['type'] == 'buy' else offer['counter']`. -/
def escrow_user_of (o : Offer) : Party :=
  match o.type with
  | Side.buy => o.init
  | Side.sell => o.counter

/-- The party selected as `other_user` by `_confirmation_callback`. -/
def other_user_of (o : Offer) : Party :=
  match o.type with
  | Side.buy => o.counter
  | Side.sell => o.init

/-- `BaseBlockchain._confirmation_callback` (lines 141-217).  The result of
the adapter-specific `is_block_confirmed` is passed in as `isConfirmed`.
Returns the new database, the notices sent, and the Bool the callback
returns (True removes the entry from the queue per `start_streaming`'s
contract, False leaves it outstanding). -/
def confirmation_callback (db : EscrowDb) (oid : Nat) (trxId : String)
    (isConfirmed : Bool) (now : ℚ) : EscrowDb × List Notice × Bool :=
  match find_one db oid with
  | none => (db, [], false)
  | some offer =>
      if isConfirmed then
        (update_one db oid (fun o => { o with trx_id := some trxId }),
         [Notice.transactionPassed (escrow_user_of offer).id,
          Notice.sendInstructions (other_user_of offer).id],
         true)
      else
        (update_one db oid (fun o => { o with transaction_time := some now }),
         [Notice.transactionPassed (escrow_user_of offer).id,
          Notice.retry (escrow_user_of offer).id],
         false)

/-- An outbound `transfer(to, amount, asset)` executed by a callback. -/
structure TransferCall where
  toAddr : String
  amount : Money
  asset : String
  deriving DecidableEq, Repr

/-- `BaseBlockchain._refund_callback` (lines 219-274).  After the block
check, `transaction_time` is set to the current time; when the block is
confirmed, `transfer(from_address, amount, asset)` is executed.  Returns the
new database, the notices, and the transfer call made (if any). -/
def refund_callback (db : EscrowDb) (oid : Nat) (fromAddress : String)
    (amount : Money) (asset : String) (isConfirmed : Bool) (now : ℚ) :
    EscrowDb × List Notice × Option TransferCall :=
  match find_one db oid with
  | none => (db, [], none)
  | some offer =>
      let db2 := update_one db oid
        (fun o => { o with transaction_time := some now })
      if isConfirmed then
        (db2,
         [Notice.refundMistakes (escrow_user_of offer).id,
          Notice.refunded (escrow_user_of offer).id],
         some { toAddr := fromAddress, amount := amount, asset := asset })
      else
        (db2,
         [Notice.refundMistakes (escrow_user_of offer).id,
          Notice.notConfirmed (escrow_user_of offer).id],
         none)

/- ### FSM state declarations (src/states.py lines 34-43 and the states
referenced by src/handlers/escrow.py) -/

/-- The states declared in the `Escrow` StatesGroup of src/states.py. -/
def escrowStateNames : List String :=
  ["sum", "fee", "bank", "name", "full_card", "receive_address",
   "receive_card_number", "send_address", "send_card_number"]

/-- The `states.Escrow.*` attributes resolved by the escrow handlers in
src/handlers/escrow.py (lines 80, 132, 135, 142, 145, 156, 159, 254, 269,
276, 279, 290, 293). -/
def escrowHandlerStateRefs : List String :=
  ["sum", "sell_fee", "sell_address", "buy_fee", "buy_address"]

/- ### Concrete documents and entries used in closed evaluations -/

/-- A concrete offer in stage `active` used for claim C1. -/
def offerC1 : Offer :=
  { id := 7, init := ⟨1⟩, counter := ⟨2⟩, type := Side.sell,
    sum_buy := 50, sum_sell := 100, sum_fee_up := 105, sum_fee_down := 95,
    sell_address := "sAddr", buy_address := "bAddr", memo := "m1",
    return_address := "", stage := Stage.active, react_time := none,
    transaction_time := none, cancel_time := none, trx_id := none }

/-- A concrete offer in stage `active` used for claim C2. -/
def offerC2 : Offer :=
  { id := 5, init := ⟨3⟩, counter := ⟨4⟩, type := Side.sell,
    sum_buy := 50, sum_sell := 100, sum_fee_up := 105, sum_fee_down := 95,
    sell_address := "sAddr", buy_address := "bAddr", memo := "m2",
    return_address := "", stage := Stage.active, react_time := none,
    transaction_time := none, cancel_time := none, trx_id := none }

/-- A concrete offer in stage `active` used for claim C3. -/
def offerC3 : Offer :=
  { id := 9, init := ⟨5⟩, counter := ⟨6⟩, type := Side.buy,
    sum_buy := 20, sum_sell := 10, sum_fee_up := 21, sum_fee_down := 19,
    sell_address := "sAddr", buy_address := "bAddr", memo := "m3",
    return_address := "", stage := Stage.active, react_time := none,
    transaction_time := none, cancel_time := none, trx_id := none }

/-- The watch-queue entry for `offerC3`. -/
def entryC3 : QueueEntry :=
  { offer_id := 9, from_address := "sender", amount_with_fee := 21,
    amount_without_fee := 20, asset := "X", memo := "m3" }

/-- A concrete offer in stage `creation` used for claim C5. -/
def offerC5 : Offer :=
  { id := 11, init := ⟨7⟩, counter := ⟨8⟩, type := Side.sell,
    sum_buy := 50, sum_sell := 100, sum_fee_up := 105, sum_fee_down := 95,
    sell_address := "", buy_address := "", memo := "",
    return_address := "", stage := Stage.creation, react_time := none,
    transaction_time := none, cancel_time := none, trx_id := none }

/-- A concrete watch-queue entry used for claim C6. -/
def entryC6 : QueueEntry :=
  { offer_id := 13, from_address := "sender", amount_with_fee := 105,
    amount_without_fee := 100, asset := "X", memo := "m6" }

/-- A concrete offer in stage `creation` used for claim C7. -/
def offerC7 : Offer :=
  { id := 15, init := ⟨9⟩, counter := ⟨10⟩, type := Side.sell,
    sum_buy := 50, sum_sell := 100, sum_fee_up := 105, sum_fee_down := 95,
    sell_address := "", buy_address := "", memo := "",
    return_address := "", stage := Stage.creation, react_time := none,
    transaction_time := none, cancel_time := none, trx_id := none }

/-- A concrete offer in stage `active` used for claim C8. -/
def offerC8 : Offer :=
  { id := 17, init := ⟨11⟩, counter := ⟨12⟩, type := Side.buy,
    sum_buy := 20, sum_sell := 10, sum_fee_up := 21, sum_fee_down := 19,
    sell_address := "sAddr", buy_address := "bAddr", memo := "m8",
    return_address := "", stage := Stage.active, react_time := none,
    transaction_time := none, cancel_time := none, trx_id := none }

/-- A concrete watch-queue entry used for claim C9. -/
def entryC9 : QueueEntry :=
  { offer_id := 19, from_address := "sender", amount_with_fee := 21,
    amount_without_fee := 20, asset := "Y", memo := "m9" }

/- ### Claims -/

/-- C4: after `set_escrow_sum` fixes the base sum, for every positive base
sum `S` (whichever of `sum_buy`/`sum_sell` corresponds to the offer's
`type`), the stored fee fields satisfy
`sum_fee_up = normalize_money (S * 1.05)` and
`sum_fee_down = normalize_money (S * 0.95)`, in exact decimal arithmetic. -/
theorem escrow_sum_fee_fields (sc ot : Side) (pb ps es S : Money)
    (hS : S = (match ot with
      | Side.buy => (set_escrow_sum sc ot pb ps es).sum_buy
      | Side.sell => (set_escrow_sum sc ot pb ps es).sum_sell))
    (hpos : 0 < S) :
    (set_escrow_sum sc ot pb ps es).sum_fee_up =
      normalize_money (S * (105 / 100)) ∧
    (set_escrow_sum sc ot pb ps es).sum_fee_down =
      normalize_money (S * (95 / 100)) := by
  subst hS
  cases sc <;> cases ot <;> exact ⟨rfl, rfl⟩

/-- C4 witness: a sell-side offer whose seller supplies the sum 100
directly, so the escrowed base sum is 100 and the fee fields are
`normalize_money 105` and `normalize_money 95`. -/
theorem escrow_sum_fee_fields_witness :
    (set_escrow_sum Side.sell Side.sell 2 3 100).sum_fee_up =
      normalize_money (100 * (105 / 100)) ∧
    (set_escrow_sum Side.sell Side.sell 2 3 100).sum_fee_down =
      normalize_money (100 * (95 / 100)) :=
  escrow_sum_fee_fields Side.sell Side.sell 2 3 100 100 rfl (by norm_num)

/-- C5 counterexample: the claim says the validator accepts exactly the
non-empty alphanumeric strings of length at most 35, but the code accepts
the empty string (`all` over an empty sequence is vacuously true and
`len('') > 35` is false), so the stated equivalence is refuted at `""`. -/
theorem address_validator_claim_refuted :
    ¬ (∀ s : String, validAddress s = true ↔
        (s ≠ "" ∧ s.length ≤ 35 ∧ s.data.all isAsciiAlnum = true)) := by
  intro h
  exact ((h "").mp (by decide)).1 rfl

/-- C5 amended: the validator accepts exactly the strings of length at most
35 all of whose characters are ASCII letters or digits (the empty string is
accepted); `set_sell_address` leaves the database unchanged on a rejected
address and stores the address with stage `pending` on an accepted one. -/
theorem address_validator_spec (s : String) (db : EscrowDb) (offer : Offer) :
    (validAddress s = true ↔
      (s.length ≤ 35 ∧ ∀ c ∈ s.data, isAsciiAlnum c = true)) ∧
    (validAddress s = false → set_sell_address db offer s = (db, false)) ∧
    (validAddress s = true →
      set_sell_address db offer s =
        (update_one db offer.id
          (fun o => { o with sell_address := s, stage := Stage.pending }),
         true)) := by
  refine ⟨?_, ?_, ?_⟩
  · simp [validAddress, List.all_eq_true, Nat.not_lt]
  · intro h
    simp [set_sell_address, h]
  · intro h
    simp [set_sell_address, h]

/-- C5 witness: a 36-character address is rejected without mutation, and a
valid alphanumeric address is stored. -/
theorem address_validator_spec_witness :
    set_sell_address [offerC5] offerC5
      "A123456789012345678901234567890123456" = ([offerC5], false) ∧
    set_sell_address [offerC5] offerC5 "Abc123" =
      (update_one [offerC5] offerC5.id
        (fun o => { o with sell_address := "Abc123", stage := Stage.pending }),
       true) :=
  ⟨(address_validator_spec "A123456789012345678901234567890123456"
      [offerC5] offerC5).2.1 (by decide),
   (address_validator_spec "Abc123" [offerC5] offerC5).2.2 (by decide)⟩

/-- C6: enqueueing a watch entry through `check_transaction` when the queue
is empty triggers exactly one `start_streaming()` call, and enqueueing while
at least one entry is already queued triggers zero calls. -/
theorem check_transaction_streaming_calls (q : List QueueEntry)
    (e : QueueEntry) :
    (q = [] → (check_transaction q e).2 = 1) ∧
    (q ≠ [] → (check_transaction q e).2 = 0) := by
  constructor
  · intro h
    subst h
    rfl
  · intro h
    match q, h with
    | a :: t, _ => simp [check_transaction]

/-- C6 witness: the first enqueue streams once, the second does not. -/
theorem check_transaction_streaming_calls_witness :
    (check_transaction [] entryC6).2 = 1 ∧
    (check_transaction [entryC6] entryC6).2 = 0 :=
  ⟨(check_transaction_streaming_calls [] entryC6).1 rfl,
   (check_transaction_streaming_calls [entryC6] entryC6).2 (by decide)⟩

/-- C7: declining the fee on either leg stores the unmodified base sum of
the escrowed side (`offer['sum_' + type]`) into the fee field named by the
callback, and the exchange proceeds to the corresponding address step. -/
theorem decline_fee_stores_base_sum (db : EscrowDb) (offer : Offer)
    (f : FeeField) (h : find_one db offer.id = some offer) :
    (find_one (sell_decline_fee db offer f).1 offer.id =
        some (setFee offer f (offerSum offer offer.type)) ∧
      (sell_decline_fee db offer f).2 = EscrowStep.sellAddressStep) ∧
    (find_one (buy_decline_fee db offer f).1 offer.id =
        some (setFee offer f (offerSum offer offer.type)) ∧
      (buy_decline_fee db offer f).2 = EscrowStep.buyAddressStep) := by
  have hid : ∀ o : Offer,
      (setFee o f (offerSum offer offer.type)).id = o.id := by
    intro o
    cases f <;> rfl
  exact ⟨⟨find_one_update_one db offer.id _ offer hid h, rfl⟩,
         ⟨find_one_update_one db offer.id _ offer hid h, rfl⟩⟩

/-- C7 witness: declining the up-fee leg on a sell-side offer with base sum
100 stores 100 (not 105) in `sum_fee_up` and moves to the address step. -/
theorem decline_fee_stores_base_sum_witness :
    (find_one (sell_decline_fee [offerC7] offerC7 FeeField.up).1 offerC7.id =
        some (setFee offerC7 FeeField.up (offerSum offerC7 offerC7.type)) ∧
      (sell_decline_fee [offerC7] offerC7 FeeField.up).2 =
        EscrowStep.sellAddressStep) ∧
    (find_one (buy_decline_fee [offerC7] offerC7 FeeField.up).1 offerC7.id =
        some (setFee offerC7 FeeField.up (offerSum offerC7 offerC7.type)) ∧
      (buy_decline_fee [offerC7] offerC7 FeeField.up).2 =
        EscrowStep.buyAddressStep) :=
  decline_fee_stores_base_sum [offerC7] offerC7 FeeField.up (by decide)

/-- With pairwise distinct ids, deleting a document makes its id
unfindable. -/
theorem find_one_delete_document (db : EscrowDb) (oid : Nat)
    (h : (db.map Offer.id).Nodup) :
    find_one (delete_document db oid) oid = none := by
  induction db with
  | nil => rfl
  | cons o rest ih =>
      rw [List.map_cons, List.nodup_cons] at h
      by_cases ho : o.id = oid
      · rw [delete_document, if_pos ho]
        rw [find_one, List.find?_eq_none]
        intro x hx
        simp only [decide_eq_true_eq]
        intro hxid
        exact h.1 (by
          rw [List.mem_map]
          exact ⟨x, hx, by rw [hxid, ho]⟩)
      · rw [delete_document, if_neg ho]
        have hrest := ih h.2
        simpa [find_one, List.find?, ho] using hrest

/-- `remove_from_queue` reports True exactly when some entry with the id
is queued. -/
theorem remove_from_queue_found (q : List QueueEntry) (oid : Nat) :
    (remove_from_queue q oid).2 =
      q.any (fun e => decide (e.offer_id = oid)) := by
  induction q with
  | nil => rfl
  | cons e rest ih =>
      by_cases he : e.offer_id = oid
      · simp [remove_from_queue, he]
      · simp [remove_from_queue, he, ih]

/-- C1 counterexample: dispatching `accept` for an offer in stage `active`
on behalf of the initiator (who is not the counter-party) is not answered
with 'not found' and does not leave the database unchanged, refuting the
claimed wrong-party/wrong-stage guard. -/
theorem callback_guard_claim_refuted :
    ¬ (∀ (now : ℚ) (db : EscrowDb) (oid actor : Nat) (offer : Offer),
        find_one db oid = some offer →
        (actor ≠ offer.counter.id ∨ offer.stage ≠ Stage.pending) →
        dispatch_accept now db oid actor = (CallbackAnswer.notFound, db)) := by
  intro h
  have h1 := h 3 [offerC1] 7 1 offerC1 (by decide) (Or.inl (by decide))
  exact absurd h1 (by decide)

/-- C1 amended: the callback guard answers 'not found' exactly for an
absent offer id (and then changes nothing); when the offer exists, the
`accept` handler body runs for any acting user in any stage, with no party
or stage verification. -/
theorem callback_guard_existence_only (now : ℚ) (db : EscrowDb)
    (oid actor : Nat) :
    (find_one db oid = none →
      dispatch_accept now db oid actor = (CallbackAnswer.notFound, db)) ∧
    (∀ offer : Offer, find_one db oid = some offer →
      dispatch_accept now db oid actor =
        (CallbackAnswer.plain, accept_offer now db offer)) := by
  constructor
  · intro h
    simp [dispatch_accept, h]
  · intro offer h
    simp [dispatch_accept, h]

/-- C1 witness: the initiator triggers `accept` on their own active offer
and the handler body runs. -/
theorem callback_guard_existence_only_witness :
    dispatch_accept 3 [offerC1] 7 1 =
      (CallbackAnswer.plain, accept_offer 3 [offerC1] offerC1) :=
  (callback_guard_existence_only 3 [offerC1] 7 1).2 offerC1 (by decide)

/-- C2 counterexample: with a confirmed block, `_confirmation_callback`
records `trx_id` but does not advance the offer's stage to `confirmed`; on
`offerC2` (stage `active`) the updated document still has stage `active`. -/
theorem confirmation_stage_claim_refuted :
    ¬ (∀ (db : EscrowDb) (oid : Nat) (trxId : String) (now : ℚ)
          (offer : Offer),
        find_one db oid = some offer →
        find_one (confirmation_callback db oid trxId true now).1 oid =
          some { offer with trx_id := some trxId, stage := Stage.confirmed }) := by
  intro h
  have h1 := h [offerC2] 5 "trx" 0 offerC2 (by decide)
  exact absurd h1 (by decide)

/-- C2 amended: for a present offer, a confirmed block makes the callback
record `trx_id` (leaving the stage and every other field unchanged), notify
both parties, and return True; a non-confirmed block makes it set
`transaction_time` to the current time, tell the depositor to retry, and
return False, so the watch-queue entry stays outstanding. -/
theorem confirmation_callback_effects (db : EscrowDb) (oid : Nat)
    (trxId : String) (now : ℚ) (offer : Offer)
    (h : find_one db oid = some offer) :
    confirmation_callback db oid trxId true now =
      (update_one db oid (fun o => { o with trx_id := some trxId }),
       [Notice.transactionPassed (escrow_user_of offer).id,
        Notice.sendInstructions (other_user_of offer).id], true) ∧
    find_one (confirmation_callback db oid trxId true now).1 oid =
      some { offer with trx_id := some trxId } ∧
    ({ offer with trx_id := some trxId }).stage = offer.stage ∧
    confirmation_callback db oid trxId false now =
      (update_one db oid (fun o => { o with transaction_time := some now }),
       [Notice.transactionPassed (escrow_user_of offer).id,
        Notice.retry (escrow_user_of offer).id], false) ∧
    find_one (confirmation_callback db oid trxId false now).1 oid =
      some { offer with transaction_time := some now } := by
  have e1 : (confirmation_callback db oid trxId true now).1 =
      update_one db oid (fun o => { o with trx_id := some trxId }) := by
    simp [confirmation_callback, h]
  have e2 : (confirmation_callback db oid trxId false now).1 =
      update_one db oid (fun o => { o with transaction_time := some now }) := by
    simp [confirmation_callback, h]
  refine ⟨by simp [confirmation_callback, h], ?_, rfl,
    by simp [confirmation_callback, h], ?_⟩
  · rw [e1]
    exact find_one_update_one db oid _ offer (fun o => rfl) h
  · rw [e2]
    exact find_one_update_one db oid _ offer (fun o => rfl) h

/-- C2 witness: on a concrete active offer with a confirmed block, the
stored document gains exactly the transaction id. -/
theorem confirmation_callback_effects_witness :
    find_one (confirmation_callback [offerC2] 5 "trx" true 0).1 5 =
      some { offerC2 with trx_id := some "trx" } :=
  (confirmation_callback_effects [offerC2] 5 "trx" 0 offerC2 (by decide)).2.1

/-- C3 counterexample: cancelling an active offer whose watch-queue entry
is outstanding leaves that entry in the queue, refuting the claim that the
cancel action removes it. -/
theorem cancel_dequeue_claim_refuted :
    ¬ (∀ (db : EscrowDb) (q : List QueueEntry) (offer : Offer),
        (offer.stage = Stage.creation ∨ offer.stage = Stage.pending ∨
          offer.stage = Stage.active) →
        ((cancel_offer db q offer).2.2.all
          (fun e => decide (e.offer_id ≠ offer.id))) = true) := by
  intro h
  have h1 := h [offerC3] [entryC3] offerC3 (Or.inr (Or.inr rfl))
  exact absurd h1 (by decide)

/-- C3 amended: `cancel_offer` on a non-confirmed offer deletes the offer
document but leaves the watch queue untouched; a subsequent confirmation
callback for the deleted offer finds no document and aborts with no effect;
`remove_from_queue` (which no cancel path calls) is the operation that
would report and remove a queued entry. -/
theorem cancel_offer_queue_untouched (db : EscrowDb) (q : List QueueEntry)
    (offer : Offer) (trxId : String) (c : Bool) (now : ℚ)
    (h : offer.stage ≠ Stage.confirmed)
    (hid : (db.map Offer.id).Nodup) :
    (cancel_offer db q offer).2.2 = q ∧
    (cancel_offer db q offer).2.1 = delete_document db offer.id ∧
    find_one (delete_document db offer.id) offer.id = none ∧
    confirmation_callback (delete_document db offer.id) offer.id trxId c
        now =
      (delete_document db offer.id, [], false) ∧
    (remove_from_queue q offer.id).2 =
      q.any (fun e => decide (e.offer_id = offer.id)) := by
  have hnone := find_one_delete_document db offer.id hid
  refine ⟨?_, ?_, hnone, ?_, remove_from_queue_found q offer.id⟩
  · simp [cancel_offer, h]
  · simp [cancel_offer, h]
  · simp [confirmation_callback, hnone]

/-- C3 witness: cancelling the concrete active offer leaves its queue entry
in place. -/
theorem cancel_offer_queue_untouched_witness :
    (cancel_offer [offerC3] [entryC3] offerC3).2.2 = [entryC3] :=
  (cancel_offer_queue_untouched [offerC3] [entryC3] offerC3 "t" true 0
    (by decide) (by decide)).1

/-- C8: for a present offer, `_refund_callback` updates only the
`transaction_time` field of the offer document (the stage in particular is
unchanged), and executes `transfer(from_address, amount, asset)` exactly
when the block is confirmed. -/
theorem refund_callback_frame (db : EscrowDb) (oid : Nat)
    (fromAddress : String) (amount : Money) (asset : String) (c : Bool)
    (now : ℚ) (offer : Offer) (h : find_one db oid = some offer) :
    (refund_callback db oid fromAddress amount asset c now).1 =
      update_one db oid (fun o => { o with transaction_time := some now }) ∧
    find_one (refund_callback db oid fromAddress amount asset c now).1 oid =
      some { offer with transaction_time := some now } ∧
    ({ offer with transaction_time := some now }).stage = offer.stage ∧
    (refund_callback db oid fromAddress amount asset c now).2.2 =
      (if c then
        some { toAddr := fromAddress, amount := amount, asset := asset }
       else none) := by
  have e1 : (refund_callback db oid fromAddress amount asset c now).1 =
      update_one db oid (fun o => { o with transaction_time := some now }) := by
    cases c <;> simp [refund_callback, h]
  refine ⟨e1, ?_, rfl, ?_⟩
  · rw [e1]
    exact find_one_update_one db oid _ offer (fun o => rfl) h
  · cases c <;> simp [refund_callback, h]

/-- C8 witness: a confirmed refund on a concrete offer stamps only
`transaction_time`. -/
theorem refund_callback_frame_witness :
    find_one (refund_callback [offerC8] 17 "sender" 20 "X" true 0).1 17 =
      some { offerC8 with transaction_time := some 0 } :=
  (refund_callback_frame [offerC8] 17 "sender" 20 "X" true 0 offerC8
    (by decide)).2.1

/-- C9 counterexample: `_queue` is a class attribute of `BaseBlockchain`,
so enqueueing through adapter instance 0 changes what adapter instance 1
observes, refuting per-instance ownership of watch-queue entries. -/
theorem queue_ownership_claim_refuted :
    ¬ (∀ (s : ProcState) (a b : AdapterId) (e : QueueEntry),
        a ≠ b →
        queue_of (check_transaction_via s a e).1 b = queue_of s b) := by
  intro h
  have h1 := h ⟨[]⟩ 0 1 entryC9 (by decide)
  exact absurd h1 (by decide)

/-- C9 amended: all adapter instances resolve `self._queue` to the same
class-level list, and an entry enqueued through any instance becomes
visible to every instance. -/
theorem queue_shared_across_instances (s : ProcState) (a b : AdapterId)
    (e : QueueEntry) :
    queue_of s a = queue_of s b ∧
    queue_of (check_transaction_via s a e).1 b = queue_of s b ++ [e] :=
  ⟨rfl, rfl⟩

/-- C10: of the five `states.Escrow` attributes the escrow handlers
resolve, only `sum` is declared by the `Escrow` StatesGroup; `sell_fee`,
`sell_address`, `buy_fee` and `buy_address` are missing, so resolving them
fails with a missing-attribute error. -/
theorem escrow_states_missing_handler_refs :
    "sell_fee" ∈ escrowHandlerStateRefs ∧
    "sell_fee" ∉ escrowStateNames ∧
    "sell_address" ∉ escrowStateNames ∧
    "buy_fee" ∉ escrowStateNames ∧
    "buy_address" ∉ escrowStateNames ∧
    escrowHandlerStateRefs.filter (fun s => escrowStateNames.contains s) =
      ["sum"] := by
  decide
